import Mathlib

/-!
Shallow embedding of `src/main.py` (Lilazul API + MCP backend): the Supabase
record-store client (crochet work items, mood rows), the remote proxy client
(books / cakes / crochet toggle-delete forwarded to the upstream HTTP API),
the MCP tools and the two REST crochet endpoints.

Python dict payloads and tool results are modelled as association lists of
`String × Value`; the Supabase store is modelled as an explicit `Store` state
threaded through the operations; httpx calls are modelled by passing in the
upstream `HttpResp`; exceptions become `Except`.
-/

namespace Lilazul

/-- A JSON-ish Python value as it appears in request payloads and responses. -/
inductive Value where
  | null : Value
  | bool (b : Bool) : Value
  | int (n : Int) : Value
  | str (s : String) : Value
  | list (vs : List Value) : Value
  | obj (fs : List (String × Value)) : Value

/-- Python truthiness (`bool(v)`): `None`, `False`, `0`, `""`, `[]`, and
empty dicts are falsy; everything else is truthy. -/
def truthy : Value → Bool
  | .null => false
  | .bool b => b
  | .int n => n != 0
  | .str s => s != ""
  | .list vs => !vs.isEmpty
  | .obj fs => !fs.isEmpty

/-- Truthiness of a `dict.get` result (`None` when the key is absent). -/
def truthyOpt : Option Value → Bool
  | none => false
  | some v => truthy v

/-- A single-quote character, used by Python `repr` of strings. -/
def sq : String := String.singleton (Char.ofNat 39)

mutual
/-- Python `repr(v)`. Escaping of special characters inside string values is
not modelled (strings are rendered between plain quotes). -/
def pyRepr : Value → String
  | .null => "None"
  | .bool true => "True"
  | .bool false => "False"
  | .int n => Int.repr n
  | .str s => sq ++ s ++ sq
  | .list vs => "[" ++ pyReprSeq vs ++ "]"
  | .obj fs => "\x7b" ++ pyReprFields fs ++ "\x7d"

/-- Comma-separated `repr`s of the elements of a Python list. -/
def pyReprSeq : List Value → String
  | [] => ""
  | [v] => pyRepr v
  | v :: vs => pyRepr v ++ ", " ++ pyReprSeq vs

/-- Comma-separated `key: repr(value)` renderings of a Python dict. -/
def pyReprFields : List (String × Value) → String
  | [] => ""
  | [kv] => sq ++ kv.1 ++ sq ++ ": " ++ pyRepr kv.2
  | kv :: fs => sq ++ kv.1 ++ sq ++ ": " ++ pyRepr kv.2 ++ ", " ++ pyReprFields fs
end

/-- Python `str(v)`: the identity on strings, `repr` otherwise. -/
def pyStr : Value → String
  | .str s => s
  | v => pyRepr v

/-- Embeds `str(x)` applied to a `dict.get` result: `str(None) = "None"`. -/
def pyStrOpt : Option Value → String
  | none => "None"
  | some v => pyStr v

/-- A row of the Supabase `crochet` table, projected to the columns the code
touches: `id, title, status, notes`. -/
structure WorkItem where
  id : Nat
  title : String
  status : String
  notes : Option String
deriving DecidableEq, Repr

/-- A row of the Supabase `mood` table: `owner, mood, updated_at`. -/
structure MoodRow where
  owner : String
  mood : String
  updated_at : Option String
deriving DecidableEq, Repr

/-- The Supabase store state: the two tables plus a counter supplying fresh
row ids for inserts. -/
structure Store where
  crochet : List WorkItem
  moods : List MoodRow
  nextId : Nat
deriving DecidableEq, Repr

/-- Failures of the store layer. `unavailable` models the `RuntimeError`
raised by `_db()` when the Supabase client was never initialised. -/
inductive StoreErr where
  | unavailable : StoreErr
deriving DecidableEq, Repr

/-- Embeds `_db()`: returns the Supabase handle, raising when `sb is None`
(missing `SUPABASE_URL` / key in the environment). -/
def _db (sb : Option Store) : Except StoreErr Store :=
  match sb with
  | none => .error .unavailable
  | some s => .ok s

/-- Core of the `crochet` upsert with `on_conflict=title`: replace the status
of the (unique-keyed) conflicting row, or insert a fresh row. Returns the
upserted row (the first element of `res.data`) and the new table. -/
def upsertRows (title status : String) (fresh : Nat) :
    List WorkItem → List WorkItem × WorkItem
  | [] =>
    let w : WorkItem := ⟨fresh, title, status, none⟩
    ([w], w)
  | r :: rs =>
    if r.title == title then
      let w : WorkItem := { r with status := status }
      (w :: rs, w)
    else
      let p := upsertRows title status fresh rs
      (r :: p.1, p.2)

/-- Embeds `upsert_item(title, status)`: upsert into the `crochet` table keyed on
`title`, returning the affected row. -/
def upsert_item (sb : Option Store) (title status : String) :
    Except StoreErr (WorkItem × Store) := do
  let s ← _db sb
  let p := upsertRows title status s.nextId s.crochet
  .ok (p.2, { s with crochet := p.1, nextId := s.nextId + 1 })

/-- Embeds `set_status(title, status)`: `update ... eq(title)` — sets the status of
every row whose title matches; returns the first updated row, or `none`
standing for the `{}` placeholder when no row matched. -/
def set_status (sb : Option Store) (title status : String) :
    Except StoreErr (Option WorkItem × Store) := do
  let s ← _db sb
  let rows := s.crochet.map fun r =>
    if r.title == title then { r with status := status } else r
  let hit := (s.crochet.find? fun r => r.title == title).map
    fun r => { r with status := status }
  .ok (hit, { s with crochet := rows })

/-- Embeds `list_items()`: select `id,title,status,notes` from the `crochet` table. -/
def list_items (sb : Option Store) : Except StoreErr (List WorkItem) := do
  let s ← _db sb
  .ok s.crochet

/-- The fields of `datetime.now(TZ)` that `get_time_context` formats:
`%H:%M`, `%Y-%m-%d`, `%A`, and `isoformat()`. -/
structure PyDatetime where
  hm : String
  ymd : String
  weekday : String
  iso : String
deriving DecidableEq, Repr

/-- Embeds `get_time_context()`: the current-time dict for the fixed
`Europe/Amsterdam` zone. -/
def get_time_context (now : PyDatetime) : List (String × Value) :=
  [("current_time", .str now.hm),
   ("date", .str now.ymd),
   ("weekday", .str now.weekday),
   ("timezone", .str "Europe/Amsterdam"),
   ("iso", .str now.iso)]

/-- Embeds `_get_mood(owner)`: `maybe_single()` select on the `mood` table; an
absent row yields the empty-mood / null-timestamp record. -/
def _get_mood (sb : Option Store) (owner : String) :
    Except StoreErr (List (String × Value)) := do
  let s ← _db sb
  let data := s.moods.find? fun r => r.owner == owner
  .ok [("owner", .str owner),
       ("mood", .str (match data with | some r => r.mood | none => "")),
       ("updated_at",
         match data with
         | some r => (match r.updated_at with | some t => .str t | none => .null)
         | none => .null)]

/-- Core of the `mood` upsert (keyed on `owner`): overwrite the (unique-keyed)
existing row wholesale, or insert a new one. -/
def moodUpsert (owner mood t : String) : List MoodRow → List MoodRow
  | [] => [⟨owner, mood, some t⟩]
  | r :: rs =>
    if r.owner == owner then ⟨owner, mood, some t⟩ :: rs
    else r :: moodUpsert owner mood t rs

/-- Embeds `_set_mood(owner, mood)`: upsert `owner, mood, now_iso()` into the `mood`
table; `t` stands for the `now_iso()` timestamp taken at the call. -/
def _set_mood (sb : Option Store) (owner mood t : String) :
    Except StoreErr (List (String × Value) × Store) := do
  let s ← _db sb
  .ok ([("ok", .bool true), ("owner", .str owner), ("mood", .str mood),
        ("updated_at", .str t)],
       { s with moods := moodUpsert owner mood t s.moods })

/-! Part: Remote proxy client (httpx against the upstream API) -/

/-- An upstream HTTP response: the status code, and the result of parsing
the body as JSON (`none` when `r.json()` would raise). -/
structure HttpResp where
  status : Nat
  body : Option Value

/-- Failures of a proxied call: `upstream s` is the `HTTPStatusError` raised
by `raise_for_status` on a non-2xx status `s` (httpx `UpstreamError`), and
`parse` is an unguarded `r.json()` failure. -/
inductive ProxyErr where
  | upstream (status : Nat) : ProxyErr
  | parse : ProxyErr
deriving DecidableEq, Repr

/-- Embeds `r.raise_for_status()`: raises carrying the status code unless the
status is a 2xx success. -/
def raise_for_status (r : HttpResp) : Except ProxyErr Unit :=
  if 200 ≤ r.status ∧ r.status ≤ 299 then .ok () else .error (.upstream r.status)

/-- Embeds `r.json()` with no guard: raises when the body does not parse. -/
def rjson (r : HttpResp) : Except ProxyErr Value :=
  match r.body with
  | some v => .ok v
  | none => .error .parse

/-! Part: MCP tools -/

/-- Embeds `get_time()` tool: returns `get_time_context()` unchanged. -/
def get_time (now : PyDatetime) : List (String × Value) :=
  get_time_context now

/-- Embeds `ping()` tool. -/
def ping : List (String × Value) :=
  [("ok", .bool true), ("pong", .str "💜")]

/-- Embeds `crochet_add(item, status="wip")` tool: upsert then echo the row. -/
def crochet_add (sb : Option Store) (item status : String) :
    Except StoreErr (List (String × Value) × Store) := do
  let p ← upsert_item sb item status
  .ok ([("ok", .bool true), ("id", .int p.1.id), ("title", .str p.1.title),
        ("status", .str p.1.status)], p.2)

/-- Embeds `crochet_mark_done(item)` tool: `set_status(item, "done")`, echoing the
updated row with `row.get` fallbacks for the no-match `{}` case. -/
def crochet_mark_done (sb : Option Store) (item : String) :
    Except StoreErr (List (String × Value) × Store) := do
  let p ← set_status sb item "done"
  .ok ([("ok", .bool true),
        ("id", match p.1 with | some r => .int r.id | none => .null),
        ("title", .str (match p.1 with | some r => r.title | none => item)),
        ("status", .str (match p.1 with | some r => r.status | none => "done"))],
       p.2)

/-- The dict encoding of a `crochet` row inside `crochet_list` results. -/
def workItemVal (w : WorkItem) : Value :=
  .obj [("id", .int w.id), ("title", .str w.title), ("status", .str w.status),
        ("notes", match w.notes with | some n => .str n | none => .null)]

/-- Embeds `crochet_list()` tool. -/
def crochet_list (sb : Option Store) : Except StoreErr (List (String × Value)) := do
  let items ← list_items sb
  .ok [("ok", .bool true), ("items", .list (items.map workItemVal))]

/-- Embeds `crochet_toggle(id)` tool: `PATCH /crochet/<id>/toggle` upstream;
`raise_for_status`, then `r.json()` guarded by a `try/except` that
substitutes `None`. -/
def crochet_toggle (id : String) (r : HttpResp) :
    Except ProxyErr (List (String × Value)) := do
  raise_for_status r
  let data := match r.body with | some v => v | none => .null
  .ok [("ok", .bool true), ("id", .str id), ("api_status", .int r.status),
       ("response", data)]

/-- Embeds `crochet_delete(item_id)` tool: `DELETE /crochet/<item_id>` upstream. -/
def crochet_delete (item_id : String) (r : HttpResp) :
    Except ProxyErr (List (String × Value)) := do
  raise_for_status r
  .ok [("ok", .bool true), ("id", .str item_id)]

/-- Embeds `book_get_current()` tool: `GET /current-book` upstream; `r.json()` is
unguarded. -/
def book_get_current (r : HttpResp) : Except ProxyErr (List (String × Value)) := do
  raise_for_status r
  let b ← rjson r
  .ok [("ok", .bool true), ("book", b)]

/-- Embeds `book_set_current(title, author=None)` tool: `POST /current-book`. -/
def book_set_current (title : String) (author : Option String) (r : HttpResp) :
    Except ProxyErr (List (String × Value)) := do
  raise_for_status r
  let b ← rjson r
  .ok [("ok", .bool true), ("book", b)]

/-- Embeds `book_list_finished()` tool: `GET /finished-books`. -/
def book_list_finished (r : HttpResp) : Except ProxyErr (List (String × Value)) := do
  raise_for_status r
  let b ← rjson r
  .ok [("ok", .bool true), ("books", b)]

/-- Embeds `book_add_finished(title, date, book_id=None)` tool:
`POST /finished-books` with a locally generated id when `book_id` is absent. -/
def book_add_finished (title date : String) (book_id : Option String)
    (r : HttpResp) : Except ProxyErr (List (String × Value)) := do
  raise_for_status r
  let b ← rjson r
  .ok [("ok", .bool true), ("book", b)]

/-- Embeds `book_delete_finished(book_id)` tool: `DELETE /finished-books/<id>`. -/
def book_delete_finished (book_id : String) (r : HttpResp) :
    Except ProxyErr (List (String × Value)) := do
  raise_for_status r
  .ok [("ok", .bool true), ("id", .str book_id)]

/-- Embeds `cake_get(month=None)` tool: `GET /cake` with an optional month query. -/
def cake_get (month : Option String) (r : HttpResp) :
    Except ProxyErr (List (String × Value)) := do
  raise_for_status r
  let d ← rjson r
  .ok [("ok", .bool true), ("data", d)]

/-- Embeds `cake_set(month, name="", note="", photo_url="", recipe="")` tool:
`PUT /cake`. -/
def cake_set (month name note photo_url recipe : String) (r : HttpResp) :
    Except ProxyErr (List (String × Value)) := do
  raise_for_status r
  let d ← rjson r
  .ok [("ok", .bool true), ("data", d)]

/-- Embeds `cake_delete(cake_id)` tool: `DELETE /cakes/<cake_id>`. -/
def cake_delete (cake_id : String) (r : HttpResp) :
    Except ProxyErr (List (String × Value)) := do
  raise_for_status r
  .ok [("ok", .bool true), ("id", .str cake_id)]

/-- Embeds `mood_get_lau()` tool: the fixed-owner read of Lau's mood. -/
def mood_get_lau (sb : Option Store) : Except StoreErr (List (String × Value)) := do
  let m ← _get_mood sb "lau"
  .ok (("ok", .bool true) :: m)

/-- Embeds `mood_set_geppie(mood)` tool: the fixed-owner write of Geppie's mood;
`t` stands for `now_iso()` at the call. -/
def mood_set_geppie (sb : Option Store) (mood t : String) :
    Except StoreErr (List (String × Value) × Store) :=
  _set_mood sb "geppie" mood t

/-! Part: REST front door -/

/-- Embeds `POST /crochet`: validates that `title` and `status` are truthy
(`if not title or not status`), then `upsert_item(str(title), str(status))`.
The second component is the store handle afterwards (unchanged when
validation rejects the payload). -/
def crochet_post (payload : List (String × Value)) (sb : Option Store) :
    Except StoreErr (List (String × Value) × Option Store) :=
  let title := payload.lookup "title"
  let status := payload.lookup "status"
  if !truthyOpt title || !truthyOpt status then
    .ok ([("ok", .bool false), ("error", .str "Missing title or status")], sb)
  else do
    let p ← upsert_item sb (pyStrOpt title) (pyStrOpt status)
    .ok ([("ok", .bool true)], some p.2)

/-- Embeds `GET /crochet`. -/
def crochet_get (sb : Option Store) : Except StoreErr (List (String × Value)) := do
  let items ← list_items sb
  .ok [("ok", .bool true), ("items", .list (items.map workItemVal))]

/-- Presence of the key `ok` with value `true` in a result mapping. -/
def hasOkTrue (m : List (String × Value)) : Prop :=
  m.lookup "ok" = some (Value.bool true)

/-- Holds when a fallible call, whenever it did return a mapping, returned
one carrying `ok: true`. -/
def okEnvelope {ε : Type} : Except ε (List (String × Value)) → Prop
  | .ok m => hasOkTrue m
  | .error _ => True

/-- Variant of `okEnvelope` for calls also returning new store state. -/
def okEnvelopeS {ε σ : Type} : Except ε (List (String × Value) × σ) → Prop
  | .ok p => hasOkTrue p.1
  | .error _ => True

/-! Part: helper lemmas about the store cores -/

/-- Upserting one owner's mood row does not disturb lookups of any other
owner. -/
theorem moodUpsert_find?_other (owner mood t o' : String) (h : o' ≠ owner)
    (rows : List MoodRow) :
    (moodUpsert owner mood t rows).find? (fun r => r.owner == o') =
      rows.find? (fun r => r.owner == o') := by
  induction rows with
  | nil =>
    have hb : (owner == o') = false := beq_eq_false_iff_ne.mpr (Ne.symm h)
    simp [moodUpsert, List.find?, hb]
  | cons r rs ih =>
    by_cases hr : r.owner == owner
    · have hro : r.owner = owner := by simpa using hr
      have h1 : (r.owner == o') = false := by
        rw [hro]; exact beq_eq_false_iff_ne.mpr (Ne.symm h)
      have h2 : (owner == o') = false := beq_eq_false_iff_ne.mpr (Ne.symm h)
      simp [moodUpsert, hr, List.find?, h1, h2]
    · simp only [moodUpsert, hr, if_false, Bool.false_eq_true]
      cases hro : (r.owner == o') with
      | true => simp [List.find?, hro]
      | false => simp [List.find?, hro, ih]

/-- After upserting an owner's mood row, looking that owner up finds exactly
the upserted row. -/
theorem moodUpsert_find?_self (owner mood t : String) (rows : List MoodRow) :
    (moodUpsert owner mood t rows).find? (fun r => r.owner == owner) =
      some ⟨owner, mood, some t⟩ := by
  induction rows with
  | nil => simp [moodUpsert, List.find?]
  | cons r rs ih =>
    by_cases hr : r.owner == owner
    · simp [moodUpsert, hr, List.find?]
    · simp only [moodUpsert, hr, if_false, Bool.false_eq_true]
      simp [List.find?, hr, ih]

/-- The crochet upsert always leaves a row carrying the upserted title. -/
theorem upsertRows_any (title status : String) (fresh : Nat)
    (rows : List WorkItem) :
    ((upsertRows title status fresh rows).1).any (fun r => r.title == title) =
      true := by
  induction rows with
  | nil => simp [upsertRows]
  | cons r rs ih =>
    by_cases hr : r.title == title
    · simp [upsertRows, hr]
    · simp [upsertRows, hr, ih]

/-- Row count for the upserted title: unchanged when a conflicting row
existed, one when the row is fresh. -/
theorem upsertRows_countP (title status : String) (fresh : Nat)
    (rows : List WorkItem) :
    ((upsertRows title status fresh rows).1).countP (fun r => r.title == title) =
      if rows.any (fun r => r.title == title) then
        rows.countP (fun r => r.title == title)
      else 1 := by
  induction rows with
  | nil => simp [upsertRows]
  | cons r rs ih =>
    by_cases hr : r.title == title
    · simp [upsertRows, hr, List.countP_cons]
    · simp [upsertRows, hr, List.countP_cons, ih]

/-- When titles are not duplicated, every row carrying the upserted title
after the upsert carries the upserted status. -/
theorem upsertRows_status_of_mem (title status : String) (fresh : Nat)
    (rows : List WorkItem)
    (hc : rows.countP (fun r => r.title == title) ≤ 1) :
    ∀ w ∈ (upsertRows title status fresh rows).1,
      w.title = title → w.status = status := by
  induction rows with
  | nil =>
    intro w hw _
    simp [upsertRows] at hw
    subst hw
    rfl
  | cons r rs ih =>
    intro w hw hwt
    by_cases hr : r.title == title
    · simp only [upsertRows, hr, if_true] at hw
      rcases List.mem_cons.mp hw with hw | hw
      · subst hw; rfl
      · exfalso
        have h1 : 0 < rs.countP (fun x => x.title == title) :=
          List.countP_pos_iff.mpr ⟨w, hw, by simp [hwt]⟩
        have h2 : (r :: rs).countP (fun x => x.title == title) =
            rs.countP (fun x => x.title == title) + 1 := by
          simp [List.countP_cons, hr]
        omega
    · simp only [upsertRows, hr, if_false, Bool.false_eq_true] at hw
      rcases List.mem_cons.mp hw with hw | hw
      · subst hw; exact absurd hwt (by simpa using hr)
      · have hc' : rs.countP (fun x => x.title == title) ≤ 1 := by
          have : (r :: rs).countP (fun x => x.title == title) =
              rs.countP (fun x => x.title == title) := by
            simp [List.countP_cons, hr]
          omega
        exact ih hc' w hw hwt

/-- A duplicate-free title column bounds the per-title row count by one. -/
theorem countP_title_le_one (rows : List WorkItem) (title : String)
    (h : (rows.map WorkItem.title).Nodup) :
    rows.countP (fun r => r.title == title) ≤ 1 := by
  induction rows with
  | nil => simp
  | cons r rs ih =>
    rw [List.map_cons, List.nodup_cons] at h
    obtain ⟨hnot, hnd⟩ := h
    by_cases hr : r.title == title
    · have heq : r.title = title := by simpa using hr
      have hz : rs.countP (fun x => x.title == title) = 0 := by
        apply List.countP_eq_zero.mpr
        intro a ha
        simp only [beq_iff_eq]
        intro hat
        exact hnot (List.mem_map.mpr ⟨a, ha, by rw [hat, heq]⟩)
      simp [List.countP_cons, hr, hz]
    · simp only [List.countP_cons, hr, if_false]
      simpa using ih hnd

/-- Upserting a nonempty title and status preserves the invariant that no
row has an empty title or status. -/
theorem upsertRows_preserves_nonempty (title status : String) (fresh : Nat)
    (rows : List WorkItem) (ht : title ≠ "") (hs : status ≠ "") :
    (∀ w ∈ rows, w.title ≠ "" ∧ w.status ≠ "") →
    ∀ w ∈ (upsertRows title status fresh rows).1,
      w.title ≠ "" ∧ w.status ≠ "" := by
  induction rows with
  | nil =>
    intro _ w hw
    simp [upsertRows] at hw
    subst hw
    exact ⟨ht, hs⟩
  | cons r rs ih =>
    intro hrows w hw
    by_cases hr : r.title == title
    · simp only [upsertRows, hr, if_true] at hw
      rcases List.mem_cons.mp hw with hw | hw
      · subst hw
        exact ⟨(hrows r (by simp)).1, hs⟩
      · exact hrows w (by simp [hw])
    · simp only [upsertRows, hr, if_false, Bool.false_eq_true] at hw
      rcases List.mem_cons.mp hw with hw | hw
      · subst hw
        exact hrows w (by simp)
      · exact ih (fun w hw => hrows w (by simp [hw])) w hw

/-- Digit accumulation never shortens the accumulator. -/
theorem toDigitsCore_length_le (b : Nat) (fuel : Nat) :
    ∀ (n : Nat) (ds : List Char),
      ds.length ≤ (Nat.toDigitsCore b fuel n ds).length := by
  induction fuel with
  | zero => intro n ds; simp [Nat.toDigitsCore]
  | succ fuel ih =>
    intro n ds
    simp only [Nat.toDigitsCore]
    by_cases h : n / b = 0
    · simp [h]
    · simp only [h, if_false]
      calc ds.length ≤ (Nat.digitChar (n % b) :: ds).length := by simp
        _ ≤ _ := ih _ _

/-- Decimal rendering of a natural number is never the empty string. -/
theorem Nat_repr_ne_empty (n : Nat) : Nat.repr n ≠ "" := by
  have h : 1 ≤ (Nat.toDigits 10 n).length := by
    unfold Nat.toDigits
    simp only [Nat.toDigitsCore]
    by_cases h : n / 10 = 0
    · simp [h]
    · simp only [h, if_false]
      calc 1 ≤ (Nat.digitChar (n % 10) :: ([] : List Char)).length := by simp
        _ ≤ _ := toDigitsCore_length_le 10 n (n / 10) _
  intro hc
  unfold Nat.repr at hc
  have hd := congrArg String.data hc
  simp only [List.asString] at hd
  simp [hd] at h

/-- Decimal rendering of an integer is never the empty string. -/
theorem Int_repr_ne_empty (n : Int) : Int.repr n ≠ "" := by
  cases n with
  | ofNat m => simpa [Int.repr] using Nat_repr_ne_empty m
  | negSucc m =>
    intro h
    have hl := congrArg String.length h
    simp only [Int.repr, String.length_append] at hl
    have h1 : ("-" : String).length = 1 := rfl
    have h0 : ("" : String).length = 0 := rfl
    omega

/-- Python `str` of any truthy value is a nonempty string. -/
theorem pyStr_ne_empty_of_truthy (v : Value) (h : truthy v = true) :
    pyStr v ≠ "" := by
  cases v with
  | null => simp [truthy] at h
  | bool b =>
    cases b with
    | false => simp [truthy] at h
    | true =>
      intro hc
      exact absurd (congrArg String.length hc) (by decide)
  | int n => simpa [pyStr, pyRepr] using Int_repr_ne_empty n
  | str s =>
    have : s ≠ "" := by simpa [truthy] using h
    simpa [pyStr] using this
  | list vs =>
    intro hc
    have hl := congrArg String.length hc
    simp only [pyStr, pyRepr, String.length_append] at hl
    have h1 : ("[" : String).length = 1 := rfl
    have h2 : ("]" : String).length = 1 := rfl
    have h0 : ("" : String).length = 0 := rfl
    omega
  | obj fs =>
    intro hc
    have hl := congrArg String.length hc
    simp only [pyStr, pyRepr, String.length_append] at hl
    have h1 : ("\x7b" : String).length = 1 := rfl
    have h2 : ("\x7d" : String).length = 1 := rfl
    have h0 : ("" : String).length = 0 := rfl
    omega

/-- On a non-2xx status, `raise_for_status` raises, carrying the status. -/
theorem raise_for_status_error (r : HttpResp)
    (h : ¬(200 ≤ r.status ∧ r.status ≤ 299)) :
    raise_for_status r = .error (.upstream r.status) := by
  simp [raise_for_status, h]

/-- On a 2xx status, `raise_for_status` is a no-op. -/
theorem raise_for_status_ok (r : HttpResp)
    (h : 200 ≤ r.status ∧ r.status ≤ 299) :
    raise_for_status r = .ok () := by
  simp [raise_for_status, h]

/-! Part: claim theorems -/

/-- C1. Every proxied operation, called against an upstream response with a
non-success (non-2xx) HTTP status, propagates the upstream error carrying
exactly that status code; in particular it never returns a mapping at all,
let alone one with `ok: true`. -/
theorem upstream_error_propagation (s : Nat) (b : Option Value)
    (id iid bid cid title date month name note pu rc : String)
    (author book_id mo : Option String)
    (h : ¬(200 ≤ s ∧ s ≤ 299)) :
    crochet_toggle id ⟨s, b⟩ = .error (.upstream s) ∧
    crochet_delete iid ⟨s, b⟩ = .error (.upstream s) ∧
    book_get_current ⟨s, b⟩ = .error (.upstream s) ∧
    book_set_current title author ⟨s, b⟩ = .error (.upstream s) ∧
    book_list_finished ⟨s, b⟩ = .error (.upstream s) ∧
    book_add_finished title date book_id ⟨s, b⟩ = .error (.upstream s) ∧
    book_delete_finished bid ⟨s, b⟩ = .error (.upstream s) ∧
    cake_get mo ⟨s, b⟩ = .error (.upstream s) ∧
    cake_set month name note pu rc ⟨s, b⟩ = .error (.upstream s) ∧
    cake_delete cid ⟨s, b⟩ = .error (.upstream s) ∧
    ∀ m, crochet_toggle id ⟨s, b⟩ ≠ .ok m := by
  have hrs : raise_for_status ⟨s, b⟩ = .error (.upstream s) :=
    raise_for_status_error ⟨s, b⟩ h
  refine ⟨?_, ?_, ?_, ?_, ?_, ?_, ?_, ?_, ?_, ?_, ?_⟩ <;>
    simp [crochet_toggle, crochet_delete, book_get_current, book_set_current,
          book_list_finished, book_add_finished, book_delete_finished,
          cake_get, cake_set, cake_delete, hrs, Bind.bind, Except.bind]

/-- Witness for C1: `crochet_toggle` against an upstream 404 propagates the
error with status 404. -/
theorem upstream_error_propagation_witness :
    crochet_toggle "7" ⟨404, none⟩ = .error (.upstream 404) :=
  (upstream_error_propagation 404 none "7" "7" "b" "c" "t" "d" "m" "n" "o"
    "p" "r" none none none (by decide)).1

/-- C4 counterexample: `book_get_current` against a successful upstream
response whose body does not parse fails the call (propagating the parse
failure) instead of substituting an absent value. -/
theorem book_get_current_parse_failure_fails :
    book_get_current ⟨200, none⟩ = .error .parse := by
  simp [book_get_current, raise_for_status, rjson, Bind.bind, Except.bind]

/-- C4 amended. On a success status with an unparseable body, only
`crochet_toggle` substitutes an absent value (`None`) and still succeeds;
the other body-parsing proxied operations (`book_get_current`,
`book_set_current`, `book_list_finished`, `book_add_finished`, `cake_get`,
`cake_set`) fail the call, and the delete operations never parse the body. -/
theorem parse_failure_only_toggle_substitutes (s : Nat)
    (id iid bid cid title date month name note pu rc : String)
    (author book_id mo : Option String)
    (hok : 200 ≤ s ∧ s ≤ 299) :
    crochet_toggle id ⟨s, none⟩ =
      .ok [("ok", .bool true), ("id", .str id), ("api_status", .int s),
           ("response", .null)] ∧
    book_get_current ⟨s, none⟩ = .error .parse ∧
    book_set_current title author ⟨s, none⟩ = .error .parse ∧
    book_list_finished ⟨s, none⟩ = .error .parse ∧
    book_add_finished title date book_id ⟨s, none⟩ = .error .parse ∧
    cake_get mo ⟨s, none⟩ = .error .parse ∧
    cake_set month name note pu rc ⟨s, none⟩ = .error .parse ∧
    crochet_delete iid ⟨s, none⟩ = .ok [("ok", .bool true), ("id", .str iid)] ∧
    book_delete_finished bid ⟨s, none⟩ =
      .ok [("ok", .bool true), ("id", .str bid)] ∧
    cake_delete cid ⟨s, none⟩ = .ok [("ok", .bool true), ("id", .str cid)] := by
  have hrs : raise_for_status ⟨s, none⟩ = .ok () := raise_for_status_ok ⟨s, none⟩ hok
  refine ⟨?_, ?_, ?_, ?_, ?_, ?_, ?_, ?_, ?_, ?_⟩ <;>
    simp [crochet_toggle, crochet_delete, book_get_current, book_set_current,
          book_list_finished, book_add_finished, book_delete_finished,
          cake_get, cake_set, cake_delete, rjson, hrs, Bind.bind, Except.bind]

/-- Witness for C4 amended, at status 200. -/
theorem parse_failure_only_toggle_substitutes_witness :
    crochet_toggle "3" ⟨200, none⟩ =
      .ok [("ok", .bool true), ("id", .str "3"), ("api_status", .int 200),
           ("response", .null)] ∧
    cake_get none ⟨200, none⟩ = .error .parse :=
  have h := parse_failure_only_toggle_substitutes 200 "3" "i" "b" "c" "t" "d"
    "m" "n" "o" "p" "r" none none none (by decide)
  ⟨h.1, h.2.2.2.2.2.1⟩

/-- C9. With the store handle never initialised (configuration missing from
the environment), every store-dependent operation fails with the
store-unavailable error rather than performing any store access: the
record-store primitives and the REST crochet endpoints (`POST /crochet`
once its local validation passes, `GET /crochet` always). -/
theorem store_unavailable_propagation (title status owner mood t : String)
    (payload : List (String × Value)) :
    upsert_item none title status = .error .unavailable ∧
    set_status none title status = .error .unavailable ∧
    list_items none = .error .unavailable ∧
    _get_mood none owner = .error .unavailable ∧
    _set_mood none owner mood t = .error .unavailable ∧
    crochet_get none = .error .unavailable ∧
    (truthyOpt (payload.lookup "title") = true →
     truthyOpt (payload.lookup "status") = true →
     crochet_post payload none = .error .unavailable) := by
  refine ⟨rfl, rfl, rfl, rfl, rfl, rfl, ?_⟩
  intro h1 h2
  simp [crochet_post, h1, h2, upsert_item, _db, Bind.bind, Except.bind]

/-- Witness for C9: a valid `POST /crochet` payload against a missing store
handle fails with the store-unavailable error. -/
theorem store_unavailable_propagation_witness :
    crochet_post [("title", Value.str "hat"), ("status", Value.str "wip")]
      none = .error .unavailable :=
  (store_unavailable_propagation "a" "b" "c" "d" "e"
      [("title", Value.str "hat"), ("status", Value.str "wip")]).2.2.2.2.2.2
    rfl rfl

/-- C8. For any owner with no row in the mood table, the mood read does not
fail: it yields that owner, an empty-string mood, and a null timestamp; in
particular `mood_get_lau` does so when "lau" has no row. -/
theorem get_mood_absent_owner_defaults (s : Store) (owner : String)
    (h : s.moods.find? (fun r => r.owner == owner) = none) :
    _get_mood (some s) owner =
      .ok [("owner", .str owner), ("mood", .str ""), ("updated_at", .null)] ∧
    (owner = "lau" → mood_get_lau (some s) =
      .ok [("ok", .bool true), ("owner", .str "lau"), ("mood", .str ""),
           ("updated_at", .null)]) := by
  constructor
  · simp [_get_mood, _db, h, Bind.bind, Except.bind]
  · intro ho
    subst ho
    simp [mood_get_lau, _get_mood, _db, h, Bind.bind, Except.bind]

/-- Witness for C8 on an empty mood table. -/
theorem get_mood_absent_owner_defaults_witness :
    _get_mood (some ⟨[], [], 1⟩) "lau" =
      .ok [("owner", .str "lau"), ("mood", .str ""), ("updated_at", .null)] :=
  (get_mood_absent_owner_defaults ⟨[], [], 1⟩ "lau" rfl).1

/-- C7. Setting Geppie's mood leaves `mood_get_lau` unchanged (distinct
owners are isolated), and reading Geppie's own record afterwards yields the
written mood with the (non-null) timestamp of the write, which the set call
also echoes. -/
theorem mood_owner_isolation (s : Store) (m t : String)
    (resp : List (String × Value)) (s' : Store)
    (h : mood_set_geppie (some s) m t = .ok (resp, s')) :
    mood_get_lau (some s') = mood_get_lau (some s) ∧
    _get_mood (some s') "geppie" =
      .ok [("owner", .str "geppie"), ("mood", .str m),
           ("updated_at", .str t)] ∧
    resp.lookup "updated_at" = some (.str t) := by
  simp only [mood_set_geppie, _set_mood, _db, Bind.bind, Except.bind,
    Except.ok.injEq, Prod.mk.injEq] at h
  obtain ⟨hresp, hs⟩ := h
  subst hs
  refine ⟨?_, ?_, ?_⟩
  · simp [mood_get_lau, _get_mood, _db, Bind.bind, Except.bind,
      moodUpsert_find?_other "geppie" m t "lau" (by decide) s.moods]
  · simp [_get_mood, _db, Bind.bind, Except.bind,
      moodUpsert_find?_self "geppie" m t s.moods]
  · rw [← hresp]
    rfl

/-- Witness for C7: writing Geppie's mood next to an existing Lau row. -/
theorem mood_owner_isolation_witness :
    mood_get_lau (some ⟨[], [⟨"lau", "happy", some "T0"⟩,
        ⟨"geppie", "meh", some "T1"⟩], 1⟩) =
      mood_get_lau (some ⟨[], [⟨"lau", "happy", some "T0"⟩], 1⟩) ∧
    _get_mood (some ⟨[], [⟨"lau", "happy", some "T0"⟩,
        ⟨"geppie", "meh", some "T1"⟩], 1⟩) "geppie" =
      .ok [("owner", .str "geppie"), ("mood", .str "meh"),
           ("updated_at", .str "T1")] ∧
    List.lookup "updated_at"
        [("ok", Value.bool true), ("owner", Value.str "geppie"),
         ("mood", Value.str "meh"), ("updated_at", Value.str "T1")] =
      some (.str "T1") :=
  mood_owner_isolation ⟨[], [⟨"lau", "happy", some "T0"⟩], 1⟩ "meh" "T1"
    [("ok", Value.bool true), ("owner", Value.str "geppie"),
     ("mood", Value.str "meh"), ("updated_at", Value.str "T1")]
    ⟨[], [⟨"lau", "happy", some "T0"⟩, ⟨"geppie", "meh", some "T1"⟩], 1⟩
    rfl

/-- C6. `crochet_mark_done(x)` sets the status of the work item titled `x`
to exactly "done" (keeping its id, title and notes), and leaves every other
work item — and the mood table — unchanged. -/
theorem crochet_mark_done_frame (s : Store) (x : String)
    (resp : List (String × Value)) (s' : Store)
    (h : crochet_mark_done (some s) x = .ok (resp, s')) :
    s'.crochet.length = s.crochet.length ∧
    s'.moods = s.moods ∧
    ∀ i (hi : i < s.crochet.length) (hi' : i < s'.crochet.length),
      ((s.crochet.get ⟨i, hi⟩).title = x →
        s'.crochet.get ⟨i, hi'⟩ =
          { s.crochet.get ⟨i, hi⟩ with status := "done" }) ∧
      ((s.crochet.get ⟨i, hi⟩).title ≠ x →
        s'.crochet.get ⟨i, hi'⟩ = s.crochet.get ⟨i, hi⟩) := by
  simp only [crochet_mark_done, set_status, _db, Bind.bind, Except.bind,
    Except.ok.injEq, Prod.mk.injEq] at h
  obtain ⟨-, hs⟩ := h
  subst hs
  refine ⟨by simp, rfl, ?_⟩
  intro i hi hi'
  constructor
  · intro ht
    simp only [List.get_eq_getElem] at ht ⊢
    simp [List.getElem_map, ht]
  · intro ht
    simp only [List.get_eq_getElem] at ht ⊢
    have hb : (s.crochet[i].title == x) = false := beq_eq_false_iff_ne.mpr ht
    simp [List.getElem_map, hb]
    exact fun hx => absurd hx ht

/-- Witness for C6: marking "hat" done in a two-item store updates that row
and leaves the other untouched. -/
theorem crochet_mark_done_frame_witness :
    (Store.mk [⟨1, "hat", "done", none⟩, ⟨2, "sock", "wip", none⟩] [] 3).crochet.length =
      (Store.mk [⟨1, "hat", "wip", none⟩, ⟨2, "sock", "wip", none⟩] [] 3).crochet.length ∧
    (Store.mk [⟨1, "hat", "done", none⟩, ⟨2, "sock", "wip", none⟩] [] 3).moods =
      (Store.mk [⟨1, "hat", "wip", none⟩, ⟨2, "sock", "wip", none⟩] [] 3).moods ∧
    ∀ i (hi : i < (Store.mk [⟨1, "hat", "wip", none⟩, ⟨2, "sock", "wip", none⟩] [] 3).crochet.length)
      (hi' : i < (Store.mk [⟨1, "hat", "done", none⟩, ⟨2, "sock", "wip", none⟩] [] 3).crochet.length),
      (((Store.mk [⟨1, "hat", "wip", none⟩, ⟨2, "sock", "wip", none⟩] [] 3).crochet.get ⟨i, hi⟩).title = "hat" →
        (Store.mk [⟨1, "hat", "done", none⟩, ⟨2, "sock", "wip", none⟩] [] 3).crochet.get ⟨i, hi'⟩ =
          { (Store.mk [⟨1, "hat", "wip", none⟩, ⟨2, "sock", "wip", none⟩] [] 3).crochet.get ⟨i, hi⟩ with
              status := "done" }) ∧
      (((Store.mk [⟨1, "hat", "wip", none⟩, ⟨2, "sock", "wip", none⟩] [] 3).crochet.get ⟨i, hi⟩).title ≠ "hat" →
        (Store.mk [⟨1, "hat", "done", none⟩, ⟨2, "sock", "wip", none⟩] [] 3).crochet.get ⟨i, hi'⟩ =
          (Store.mk [⟨1, "hat", "wip", none⟩, ⟨2, "sock", "wip", none⟩] [] 3).crochet.get ⟨i, hi⟩) :=
  crochet_mark_done_frame
    (Store.mk [⟨1, "hat", "wip", none⟩, ⟨2, "sock", "wip", none⟩] [] 3) "hat"
    [("ok", Value.bool true), ("id", Value.int 1), ("title", Value.str "hat"),
     ("status", Value.str "done")]
    (Store.mk [⟨1, "hat", "done", none⟩, ⟨2, "sock", "wip", none⟩] [] 3)
    rfl

/-- C2 counterexample: a payload where `title` and `status` are both present
but `title` is the empty string is rejected with the missing-field error and
no store write, contradicting "when both are present it performs the upsert
and returns ok: true". -/
theorem crochet_post_present_but_empty_rejected :
    List.lookup "title" [("title", Value.str ""), ("status", Value.str "wip")] =
      some (Value.str "") ∧
    List.lookup "status" [("title", Value.str ""), ("status", Value.str "wip")] =
      some (Value.str "wip") ∧
    crochet_post [("title", Value.str ""), ("status", Value.str "wip")]
        (some ⟨[], [], 1⟩) =
      .ok ([("ok", Value.bool false),
            ("error", Value.str "Missing title or status")],
           some ⟨[], [], 1⟩) :=
  ⟨rfl, rfl, rfl⟩

/-- C2 amended. `POST /crochet` returns the missing-field error and performs
no store write when `title` or `status` is missing or falsy; when both are
present and truthy it performs the upsert (on the `str`-coerced values) and
returns `ok: true`. -/
theorem crochet_post_requires_truthy_fields (payload : List (String × Value)) :
    (truthyOpt (payload.lookup "title") = false ∨
       truthyOpt (payload.lookup "status") = false →
     ∀ sb, crochet_post payload sb =
       .ok ([("ok", .bool false), ("error", .str "Missing title or status")],
            sb)) ∧
    (truthyOpt (payload.lookup "title") = true →
     truthyOpt (payload.lookup "status") = true →
     ∀ s : Store, crochet_post payload (some s) =
       (upsert_item (some s) (pyStrOpt (payload.lookup "title"))
           (pyStrOpt (payload.lookup "status"))).map
         (fun p => ([("ok", Value.bool true)], some p.2))) := by
  constructor
  · intro h sb
    rcases h with h | h <;> simp [crochet_post, h]
  · intro h1 h2 s
    simp [crochet_post, h1, h2, upsert_item, _db, Bind.bind, Except.bind,
      Except.map]

/-- Witness for C2 amended: a payload missing `status` is rejected without a
write, and a complete truthy payload performs the upsert. -/
theorem crochet_post_requires_truthy_fields_witness :
    crochet_post [("title", Value.str "hat")] (some ⟨[], [], 1⟩) =
      .ok ([("ok", Value.bool false),
            ("error", Value.str "Missing title or status")],
           some ⟨[], [], 1⟩) ∧
    crochet_post [("title", Value.str "hat"), ("status", Value.str "wip")]
        (some ⟨[], [], 1⟩) =
      (upsert_item (some ⟨[], [], 1⟩) "hat" "wip").map
        (fun p => ([("ok", Value.bool true)], some p.2)) :=
  ⟨(crochet_post_requires_truthy_fields [("title", Value.str "hat")]).1
      (Or.inr rfl) (some ⟨[], [], 1⟩),
   (crochet_post_requires_truthy_fields
      [("title", Value.str "hat"), ("status", Value.str "wip")]).2
      rfl rfl ⟨[], [], 1⟩⟩

/-- C3. Under the store's unique-title invariant, adding the same title
twice (status `s1`, then `s2`) and listing yields exactly one item with
that title, and its status is `s2`: the title-keyed upsert overwrites the
status instead of duplicating the row. -/
theorem crochet_add_upsert_overwrites (s : Store) (t s1 s2 : String)
    (hnd : (s.crochet.map WorkItem.title).Nodup)
    (m1 m2 : List (String × Value)) (s1' s2' : Store)
    (h1 : crochet_add (some s) t s1 = .ok (m1, s1'))
    (h2 : crochet_add (some s1') t s2 = .ok (m2, s2')) :
    ∃ items, list_items (some s2') = .ok items ∧
      items.countP (fun r => r.title == t) = 1 ∧
      ∀ r ∈ items, r.title = t → r.status = s2 := by
  simp only [crochet_add, upsert_item, _db, Bind.bind, Except.bind,
    Except.ok.injEq, Prod.mk.injEq] at h1 h2
  obtain ⟨-, hs1⟩ := h1
  obtain ⟨-, hs2⟩ := h2
  subst hs1
  subst hs2
  have hc0 : s.crochet.countP (fun r => r.title == t) ≤ 1 :=
    countP_title_le_one s.crochet t hnd
  have hc1 : ((upsertRows t s1 s.nextId s.crochet).1).countP
      (fun r => r.title == t) = 1 := by
    rw [upsertRows_countP]
    by_cases hany : s.crochet.any (fun r => r.title == t)
    · have hpos : 0 < s.crochet.countP (fun r => r.title == t) := by
        rcases List.any_eq_true.mp hany with ⟨a, ha, hpa⟩
        exact List.countP_pos_iff.mpr ⟨a, ha, hpa⟩
      simp only [hany, if_true]
      omega
    · simp [hany]
  have hc2 : ((upsertRows t s2 (s.nextId + 1)
      (upsertRows t s1 s.nextId s.crochet).1).1).countP
      (fun r => r.title == t) = 1 := by
    rw [upsertRows_countP]
    simp [upsertRows_any t s1 s.nextId s.crochet, hc1]
  refine ⟨_, rfl, hc2, ?_⟩
  exact upsertRows_status_of_mem t s2 (s.nextId + 1)
    (upsertRows t s1 s.nextId s.crochet).1 (Nat.le_of_eq hc1)

/-- Witness for C3: adding "scarf" as wip and again as done leaves a single
"scarf" item, with status done. -/
theorem crochet_add_upsert_overwrites_witness :
    ∃ items,
      list_items (some ⟨[⟨1, "scarf", "done", none⟩], [], 3⟩) = .ok items ∧
      items.countP (fun r => r.title == "scarf") = 1 ∧
      ∀ r ∈ items, r.title = "scarf" → r.status = "done" :=
  crochet_add_upsert_overwrites ⟨[], [], 1⟩ "scarf" "wip" "done" (by simp)
    [("ok", Value.bool true), ("id", Value.int 1),
     ("title", Value.str "scarf"), ("status", Value.str "wip")]
    [("ok", Value.bool true), ("id", Value.int 1),
     ("title", Value.str "scarf"), ("status", Value.str "done")]
    ⟨[⟨1, "scarf", "wip", none⟩], [], 2⟩
    ⟨[⟨1, "scarf", "done", none⟩], [], 3⟩
    rfl rfl

/-- C10. `POST /crochet` rejects present-but-falsy `title`/`status` (the
empty string in particular) with the same missing-field response and no
store write; accepted values go through Python `str` before the upsert,
truthy values always coerce to nonempty strings, and consequently the
endpoint never creates a work item with an empty title or status. -/
theorem crochet_post_falsy_rejection_and_coercion
    (payload : List (String × Value)) (s : Store) :
    (truthyOpt (payload.lookup "title") = false ∨
       truthyOpt (payload.lookup "status") = false →
     ∀ sb, crochet_post payload sb =
       .ok ([("ok", .bool false), ("error", .str "Missing title or status")],
            sb)) ∧
    (∀ v, truthy v = true → pyStr v ≠ "") ∧
    (truthyOpt (payload.lookup "title") = true →
     truthyOpt (payload.lookup "status") = true →
     crochet_post payload (some s) =
       (upsert_item (some s) (pyStrOpt (payload.lookup "title"))
           (pyStrOpt (payload.lookup "status"))).map
         (fun p => ([("ok", Value.bool true)], some p.2))) ∧
    (∀ m s', crochet_post payload (some s) = .ok (m, some s') →
       (∀ w ∈ s.crochet, w.title ≠ "" ∧ w.status ≠ "") →
       ∀ w ∈ s'.crochet, w.title ≠ "" ∧ w.status ≠ "") := by
  refine ⟨?_, pyStr_ne_empty_of_truthy, ?_, ?_⟩
  · intro h sb
    rcases h with h | h <;> simp [crochet_post, h]
  · intro h1 h2
    simp [crochet_post, h1, h2, upsert_item, _db, Bind.bind, Except.bind,
      Except.map]
  · intro m s' hpost hinv
    by_cases h1 : truthyOpt (payload.lookup "title") = true
    · by_cases h2 : truthyOpt (payload.lookup "status") = true
      · have hacc : crochet_post payload (some s) =
            .ok ([("ok", Value.bool true)],
              some { s with
                crochet := (upsertRows (pyStrOpt (payload.lookup "title"))
                  (pyStrOpt (payload.lookup "status")) s.nextId s.crochet).1,
                nextId := s.nextId + 1 }) := by
          simp [crochet_post, h1, h2, upsert_item, _db, Bind.bind, Except.bind]
        rw [hacc] at hpost
        injection hpost with hp
        have hs2 : s' = { s with
            crochet := (upsertRows (pyStrOpt (payload.lookup "title"))
              (pyStrOpt (payload.lookup "status")) s.nextId s.crochet).1,
            nextId := s.nextId + 1 } := by
          simpa using (congrArg Prod.snd hp).symm
        rw [hs2]
        have ht : pyStrOpt (payload.lookup "title") ≠ "" := by
          rcases hlk : payload.lookup "title" with - | v
          · simp [hlk, truthyOpt] at h1
          · rw [hlk] at h1
            exact pyStr_ne_empty_of_truthy v h1
        have hst : pyStrOpt (payload.lookup "status") ≠ "" := by
          rcases hlk : payload.lookup "status" with - | v
          · simp [hlk, truthyOpt] at h2
          · rw [hlk] at h2
            exact pyStr_ne_empty_of_truthy v h2
        exact upsertRows_preserves_nonempty _ _ _ _ ht hst hinv
      · have h2f : truthyOpt (payload.lookup "status") = false := by
          cases hcs : truthyOpt (payload.lookup "status")
          · rfl
          · exact absurd hcs h2
        have hrej : crochet_post payload (some s) =
            .ok ([("ok", Value.bool false),
                  ("error", Value.str "Missing title or status")], some s) := by
          simp [crochet_post, h2f]
        rw [hrej] at hpost
        injection hpost with hp
        have hs2 : s' = s := by
          simpa using (congrArg Prod.snd hp).symm
        rw [hs2]
        exact hinv
    · have h1f : truthyOpt (payload.lookup "title") = false := by
        cases hct : truthyOpt (payload.lookup "title")
        · rfl
        · exact absurd hct h1
      have hrej : crochet_post payload (some s) =
          .ok ([("ok", Value.bool false),
                ("error", Value.str "Missing title or status")], some s) := by
        simp [crochet_post, h1f]
      rw [hrej] at hpost
      injection hpost with hp
      have hs2 : s' = s := by
        simpa using (congrArg Prod.snd hp).symm
      rw [hs2]
      exact hinv

/-- Witness for C10: the empty-string title is rejected; a truthy non-string
payload is coerced to the nonempty strings "5" and "7" and the resulting
store has no empty titles or statuses. -/
theorem crochet_post_falsy_rejection_and_coercion_witness :
    crochet_post [("title", Value.str ""), ("status", Value.str "wip")]
        (some ⟨[], [], 1⟩) =
      .ok ([("ok", Value.bool false),
            ("error", Value.str "Missing title or status")],
           some ⟨[], [], 1⟩) ∧
    pyStr (Value.int 5) ≠ "" ∧
    ∀ w ∈ ([⟨1, "5", "7", none⟩] : List WorkItem),
      w.title ≠ "" ∧ w.status ≠ "" :=
  ⟨(crochet_post_falsy_rejection_and_coercion
      [("title", Value.str ""), ("status", Value.str "wip")] ⟨[], [], 1⟩).1
      (Or.inl rfl) (some ⟨[], [], 1⟩),
   (crochet_post_falsy_rejection_and_coercion [] ⟨[], [], 1⟩).2.1
      (Value.int 5) rfl,
   (crochet_post_falsy_rejection_and_coercion
      [("title", Value.int 5), ("status", Value.int 7)] ⟨[], [], 1⟩).2.2.2
      [("ok", Value.bool true)] ⟨[⟨1, "5", "7", none⟩], [], 2⟩ rfl
      (by simp)⟩

/-- C5 counterexample: the mapping returned by the `get_time` tool carries
no `ok` key at all (it is the bare time context), refuting "every tool
returns a mapping containing at least ok". -/
theorem get_time_lacks_ok_key :
    (get_time ⟨"10:00", "2026-10-12", "Sunday",
        "2026-10-12T10:00:00+02:00"⟩).lookup "ok" = none := rfl

/-- C5 amended. Every tool except `get_time` returns (whenever it returns a
mapping rather than raising) a mapping containing `ok` with a boolean value
— in fact `ok: true`; `get_time` returns the time context, which has no
`ok` key. -/
theorem tools_return_ok_envelope_except_get_time :
    hasOkTrue ping ∧
    (∀ sb i st, okEnvelopeS (crochet_add sb i st)) ∧
    (∀ sb i, okEnvelopeS (crochet_mark_done sb i)) ∧
    (∀ sb, okEnvelope (crochet_list sb)) ∧
    (∀ id r, okEnvelope (crochet_toggle id r)) ∧
    (∀ iid r, okEnvelope (crochet_delete iid r)) ∧
    (∀ r, okEnvelope (book_get_current r)) ∧
    (∀ ti ao r, okEnvelope (book_set_current ti ao r)) ∧
    (∀ r, okEnvelope (book_list_finished r)) ∧
    (∀ ti d bo r, okEnvelope (book_add_finished ti d bo r)) ∧
    (∀ b r, okEnvelope (book_delete_finished b r)) ∧
    (∀ mo r, okEnvelope (cake_get mo r)) ∧
    (∀ mth nm no pu rc r, okEnvelope (cake_set mth nm no pu rc r)) ∧
    (∀ c r, okEnvelope (cake_delete c r)) ∧
    (∀ sb, okEnvelope (mood_get_lau sb)) ∧
    (∀ sb m t, okEnvelopeS (mood_set_geppie sb m t)) := by
  refine ⟨rfl, ?_, ?_, ?_, ?_, ?_, ?_, ?_, ?_, ?_, ?_, ?_, ?_, ?_, ?_, ?_⟩
  · intro sb i st
    cases sb with
    | none => exact trivial
    | some s =>
      simp [okEnvelopeS, crochet_add, upsert_item, _db, Bind.bind,
        Except.bind, hasOkTrue, List.lookup]
  · intro sb i
    cases sb with
    | none => exact trivial
    | some s =>
      simp [okEnvelopeS, crochet_mark_done, set_status, _db, Bind.bind,
        Except.bind, hasOkTrue, List.lookup]
  · intro sb
    cases sb with
    | none => exact trivial
    | some s =>
      simp [okEnvelope, crochet_list, list_items, _db, Bind.bind,
        Except.bind, hasOkTrue, List.lookup]
  · intro id r
    by_cases hc : 200 ≤ r.status ∧ r.status ≤ 299
    · simp [okEnvelope, crochet_toggle, raise_for_status_ok r hc, Bind.bind,
        Except.bind, hasOkTrue, List.lookup]
    · simp [okEnvelope, crochet_toggle, raise_for_status_error r hc,
        Bind.bind, Except.bind]
  · intro iid r
    by_cases hc : 200 ≤ r.status ∧ r.status ≤ 299
    · simp [okEnvelope, crochet_delete, raise_for_status_ok r hc, Bind.bind,
        Except.bind, hasOkTrue, List.lookup]
    · simp [okEnvelope, crochet_delete, raise_for_status_error r hc,
        Bind.bind, Except.bind]
  · intro r
    by_cases hc : 200 ≤ r.status ∧ r.status ≤ 299
    · cases hb : r.body with
      | none =>
        simp [okEnvelope, book_get_current, raise_for_status_ok r hc, rjson,
          hb, Bind.bind, Except.bind]
      | some v =>
        simp [okEnvelope, book_get_current, raise_for_status_ok r hc, rjson,
          hb, Bind.bind, Except.bind, hasOkTrue, List.lookup]
    · simp [okEnvelope, book_get_current, raise_for_status_error r hc,
        Bind.bind, Except.bind]
  · intro ti ao r
    by_cases hc : 200 ≤ r.status ∧ r.status ≤ 299
    · cases hb : r.body with
      | none =>
        simp [okEnvelope, book_set_current, raise_for_status_ok r hc, rjson,
          hb, Bind.bind, Except.bind]
      | some v =>
        simp [okEnvelope, book_set_current, raise_for_status_ok r hc, rjson,
          hb, Bind.bind, Except.bind, hasOkTrue, List.lookup]
    · simp [okEnvelope, book_set_current, raise_for_status_error r hc,
        Bind.bind, Except.bind]
  · intro r
    by_cases hc : 200 ≤ r.status ∧ r.status ≤ 299
    · cases hb : r.body with
      | none =>
        simp [okEnvelope, book_list_finished, raise_for_status_ok r hc,
          rjson, hb, Bind.bind, Except.bind]
      | some v =>
        simp [okEnvelope, book_list_finished, raise_for_status_ok r hc,
          rjson, hb, Bind.bind, Except.bind, hasOkTrue, List.lookup]
    · simp [okEnvelope, book_list_finished, raise_for_status_error r hc,
        Bind.bind, Except.bind]
  · intro ti d bo r
    by_cases hc : 200 ≤ r.status ∧ r.status ≤ 299
    · cases hb : r.body with
      | none =>
        simp [okEnvelope, book_add_finished, raise_for_status_ok r hc,
          rjson, hb, Bind.bind, Except.bind]
      | some v =>
        simp [okEnvelope, book_add_finished, raise_for_status_ok r hc,
          rjson, hb, Bind.bind, Except.bind, hasOkTrue, List.lookup]
    · simp [okEnvelope, book_add_finished, raise_for_status_error r hc,
        Bind.bind, Except.bind]
  · intro b r
    by_cases hc : 200 ≤ r.status ∧ r.status ≤ 299
    · simp [okEnvelope, book_delete_finished, raise_for_status_ok r hc,
        Bind.bind, Except.bind, hasOkTrue, List.lookup]
    · simp [okEnvelope, book_delete_finished, raise_for_status_error r hc,
        Bind.bind, Except.bind]
  · intro mo r
    by_cases hc : 200 ≤ r.status ∧ r.status ≤ 299
    · cases hb : r.body with
      | none =>
        simp [okEnvelope, cake_get, raise_for_status_ok r hc, rjson, hb,
          Bind.bind, Except.bind]
      | some v =>
        simp [okEnvelope, cake_get, raise_for_status_ok r hc, rjson, hb,
          Bind.bind, Except.bind, hasOkTrue, List.lookup]
    · simp [okEnvelope, cake_get, raise_for_status_error r hc, Bind.bind,
        Except.bind]
  · intro mth nm no pu rc r
    by_cases hc : 200 ≤ r.status ∧ r.status ≤ 299
    · cases hb : r.body with
      | none =>
        simp [okEnvelope, cake_set, raise_for_status_ok r hc, rjson, hb,
          Bind.bind, Except.bind]
      | some v =>
        simp [okEnvelope, cake_set, raise_for_status_ok r hc, rjson, hb,
          Bind.bind, Except.bind, hasOkTrue, List.lookup]
    · simp [okEnvelope, cake_set, raise_for_status_error r hc, Bind.bind,
        Except.bind]
  · intro c r
    by_cases hc : 200 ≤ r.status ∧ r.status ≤ 299
    · simp [okEnvelope, cake_delete, raise_for_status_ok r hc, Bind.bind,
        Except.bind, hasOkTrue, List.lookup]
    · simp [okEnvelope, cake_delete, raise_for_status_error r hc, Bind.bind,
        Except.bind]
  · intro sb
    cases sb with
    | none => exact trivial
    | some s =>
      simp [okEnvelope, mood_get_lau, _get_mood, _db, Bind.bind,
        Except.bind, hasOkTrue, List.lookup]
  · intro sb m t
    cases sb with
    | none => exact trivial
    | some s =>
      simp [okEnvelopeS, mood_set_geppie, _set_mood, _db, Bind.bind,
        Except.bind, hasOkTrue, List.lookup]

end Lilazul
